import Mathlib

/-!
Verification of the iso15118 repository's specification against its code.

The Python sources under `iso15118/shared/messages/iso15118_20/common_types.py`
and `iso15118/evcc/controller/simulator.py` are embedded shallowly below:
floats become exact rationals (`ℚ`), Python `int()` truncation becomes `pyInt`,
fallible code returns `Except`, and pydantic validation becomes explicit
constructor functions returning `Except ValidationError _`.

Parts of the repository that the claims depend on but whose code is not in the
source tree (the SECC session-state classes) are modelled from the spec; each
such definition carries a doc comment starting with `Modelled from the spec:`.
-/

deriving instance DecidableEq for Except

namespace Iso15118

/-! ## Python numeric primitives -/

/-- Python `abs(x)`. Written as an `if` (rather than Mathlib `|because|` lattice
abs) so that concrete evaluation reduces. -/
def pyAbs (q : ℚ) : ℚ := if q < 0 then -q else q

/-- Python `int(x)` applied to a (real-valued) number: truncation toward zero. -/
def pyInt (q : ℚ) : ℤ := if q < 0 then -⌊-q⌋ else ⌊q⌋

/-- Python `10 ** e` for an integer `e`, over exact rationals
(`10 ** e` is exact for `e ≥ 0` and a float for `e < 0`; we model real
semantics). -/
def pow10 (e : ℤ) : ℚ := (10 : ℚ) ^ e

/-- `INT_16_MIN` from `iso15118/shared/messages/enums.py`. -/
def INT_16_MIN : ℚ := -32768

/-- `INT_16_MAX` from `iso15118/shared/messages/enums.py`. -/
def INT_16_MAX : ℚ := 32767

/-! ## RationalNumber._convert_to_exponent_number
(`common_types.py`, lines 184-294) -/

/-- The `limit` local variable of `_convert_to_exponent_number`: the clamped
max limit, or the absolute clamped min limit for negative inputs. -/
def limit_for (float_value min_limit max_limit : ℚ) : ℚ :=
  if float_value < 0 then pyAbs (max min_limit INT_16_MIN) else min max_limit INT_16_MAX

/-- The first `while` loop of `_convert_to_exponent_number`:
`while abs_value < limit and exponent > -3: exponent -= 1; abs_value *= 10`.
The loop body runs at most 3 times (the exponent starts at 0), so fuel 3 is
exact. -/
def scaleUp (limit : ℚ) : Nat → ℤ × ℚ → ℤ × ℚ
  | 0, s => s
  | n + 1, (e, av) =>
    if av < limit ∧ -3 < e then scaleUp limit n (e - 1, av * 10) else (e, av)

/-- The second `while` loop of `_convert_to_exponent_number`:
`while abs_value > limit and exponent < 3: exponent += 1; abs_value *= 10**-1`.
The loop body runs at most 3 times, so fuel 3 is exact. -/
def scaleDown (limit : ℚ) : Nat → ℤ × ℚ → ℤ × ℚ
  | 0, s => s
  | n + 1, (e, av) =>
    if limit < av ∧ e < 3 then scaleDown limit n (e + 1, av * (1 / 10)) else (e, av)

/-- The `abs_value < limit` arm of `_convert_to_exponent_number`: scale the
value up toward the limit; if we overshot, step one exponent back; if the
scaled value still truncates to 0, reset the exponent to 0 (returning a 0
mantissa). -/
def convUp (v L : ℚ) : Except String (ℤ × ℤ) :=
  let p := scaleUp L 3 (0, pyAbs v)
  let e := if L < p.2 then p.1 + 1 else if pyInt p.2 = 0 then 0 else p.1
  Except.ok (e, pyInt (v * pow10 (-e)))

/-- The `else` arm of `_convert_to_exponent_number`: scale the value down
toward the limit; if even at exponent 3 it does not fit, raise `ValueError`. -/
def convDown (v L : ℚ) : Except String (ℤ × ℤ) :=
  let p := scaleDown L 3 (0, pyAbs v)
  if L < p.2 then Except.error "Value cant be represented with an exponent of 3"
  else Except.ok (p.1, pyInt (v * pow10 (-p.1)))

/-- `RationalNumber._convert_to_exponent_number(float_value, min_limit,
max_limit)` from `common_types.py`. Raised `ValueError`s become
`Except.error`. (Python would raise `ZeroDivisionError` when the computed
limit is exactly 0; every theorem below assumes a nonzero limit, where the
models agree.) -/
def convert_to_exponent_number (float_value min_limit max_limit : ℚ) :
    Except String (ℤ × ℤ) :=
  if float_value < 0 ∧ min_limit = 0 then
    Except.error
      "The conversion of negative values for a range with a min limit of 0, is invalid!"
  else if (1 / 10 < pyAbs float_value / limit_for float_value min_limit max_limit ∧
      pyAbs float_value / limit_for float_value min_limit max_limit ≤ 1) ∨
      pyAbs float_value = 0 then
    Except.ok (0, pyInt float_value)
  else if pyAbs float_value < limit_for float_value min_limit max_limit then
    convUp float_value (limit_for float_value min_limit max_limit)
  else
    convDown float_value (limit_for float_value min_limit max_limit)

/-- `RationalNumber` from `common_types.py`: a mantissa (`value`, int16 in the
wire format) together with a decimal exponent (int8 in the wire format). -/
structure RationalNumber where
  exponent : ℤ
  value : ℤ
  deriving DecidableEq, Repr

/-- `RationalNumber.get_decimal_value`: the decoded value
`value * 10 ** exponent`. -/
def RationalNumber.get_decimal_value (r : RationalNumber) : ℚ :=
  r.value * pow10 r.exponent

/-- `RationalNumber.get_rational_repr(float_value)` from `common_types.py`.
Python's `if not float_value: return None` is truthiness: both `None` and
`0.0` yield `None`. Otherwise `_convert_to_exponent_number` runs with its
default limits (the int16 range). -/
def get_rational_repr (float_value : Option ℚ) :
    Except String (Option RationalNumber) :=
  match float_value with
  | none => Except.ok none
  | some v =>
    if v = 0 then Except.ok none
    else
      match convert_to_exponent_number v INT_16_MIN INT_16_MAX with
      | Except.error e => Except.error e
      | Except.ok (e, m) => Except.ok (some ⟨e, m⟩)

/-! ## Pydantic validation of the iso15118-20 common types
(`common_types.py`, lines 32-69 and 474-479) -/

/-- A pydantic `ValidationError`, reduced to what the claims need: the name of
the offending field and a message. -/
structure ValidationError where
  field : String
  msg : String
  deriving DecidableEq, Repr

/-- ASCII hexadecimal digit, as accepted by Python `int(value, 16)`. -/
def isHexDigitChar (c : Char) : Bool :=
  decide ((48 ≤ c.toNat ∧ c.toNat ≤ 57) ∨ (97 ≤ c.toNat ∧ c.toNat ≤ 102) ∨
    (65 ≤ c.toNat ∧ c.toNat ≤ 70))

/-- Continuation of a base-16 digit run for Python `int(value, 16)`: hex
digits, with single underscores allowed only between digits. -/
def hexTail : List Char → Bool
  | [] => true
  | [c] => isHexDigitChar c
  | c :: d :: ds =>
    if isHexDigitChar c then hexTail (d :: ds)
    else c == '_' && isHexDigitChar d && hexTail ds

/-- A nonempty base-16 digit run (first character must be a digit). -/
def hexDigitsOk : List Char → Bool
  | [] => false
  | c :: cs => isHexDigitChar c && hexTail cs

/-- After an `0x`/`0X` radix mark, Python allows one underscore before the
digit run. -/
def hexAfterRadix : List Char → Bool
  | '_' :: cs => hexDigitsOk cs
  | cs => hexDigitsOk cs

/-- After the optional sign: an optional `0x`/`0X` radix mark, then digits. -/
def hexAfterSign : List Char → Bool
  | '0' :: 'x' :: cs => hexAfterRadix cs
  | '0' :: 'X' :: cs => hexAfterRadix cs
  | cs => hexDigitsOk cs

/-- Python `str.strip()` on a character list: drop whitespace at both ends. -/
def pyTrim (cs : List Char) : List Char :=
  ((cs.dropWhile Char.isWhitespace).reverse.dropWhile Char.isWhitespace).reverse

/-- Whether CPython `int(value, 16)` parses the string without raising
`ValueError`: optional surrounding whitespace, an optional sign, an optional
`0x`/`0X` radix mark, and a nonempty underscore-separated hex digit run. -/
def pyIntParsesHex (s : String) : Bool :=
  match pyTrim s.toList with
  | '+' :: cs => hexAfterSign cs
  | '-' :: cs => hexAfterSign cs
  | cs => hexAfterSign cs

/-- `MessageHeader` from `common_types.py` (the optional XML signature field is
external to the embedded code and not modelled). -/
structure MessageHeader where
  session_id : String
  timestamp : ℤ
  deriving DecidableEq, Repr

/-- Pydantic construction of a `MessageHeader`: the declared
`Field(max_length=16)` constraint runs first, then the
`check_sessionid_is_hexbinary` validator (`int(value, 16)` must succeed).
Each failure is a `ValidationError` naming `session_id`. -/
def mkMessageHeader (session_id : String) (timestamp : ℤ) :
    Except ValidationError MessageHeader :=
  if 16 < session_id.length then
    Except.error ⟨"session_id", "ensure this value has at most 16 characters"⟩
  else if pyIntParsesHex session_id then Except.ok ⟨session_id, timestamp⟩
  else
    Except.error ⟨"session_id",
      "Invalid value for SessionID (must be hexadecimal representation of max 8 bytes)"⟩

/-- `Identifier = constr(max_length=255)` from `common_types.py`: pydantic
construction of an identifier-typed field value. -/
def mkIdentifier (s : String) : Except ValidationError String :=
  if 255 < s.length then
    Except.error ⟨"identifier", "ensure this value has at most 255 characters"⟩
  else Except.ok s

/-- `X509IssuerSerial` (imported by `common_types.py` from `xmldsig`; its own
fields carry no constraints relevant to the claims). -/
structure X509IssuerSerial where
  x509_issuer_name : String
  x509_serial_number : ℤ
  deriving DecidableEq, Repr

/-- `RootCertificateIDList` from `common_types.py`. -/
structure RootCertificateIDList where
  root_cert_ids : List X509IssuerSerial
  deriving DecidableEq, Repr

/-- Pydantic construction of a `RootCertificateIDList`: the declared
`Field(max_items=20)` constraint. -/
def mkRootCertificateIDList (ids : List X509IssuerSerial) :
    Except ValidationError RootCertificateIDList :=
  if 20 < ids.length then
    Except.error ⟨"root_cert_ids", "ensure this value has at most 20 items"⟩
  else Except.ok ⟨ids⟩

/-! ## EVCC schedule processing (`simulator.py`, lines 265-305) -/

/-- The `UnitSymbol` members used by the embedded code
(`iso15118/shared/messages/iso15118_2/datatypes.py`). -/
inductive UnitSymbol
  | WATT
  | WATT_HOURS
  | AMPERE
  | VOLTAGE
  deriving DecidableEq, Repr

/-- The v2 `PVPMax` physical value (multiplier = base-10 exponent, value,
unit), as constructed in `process_sa_schedules`. -/
structure PVPMax where
  multiplier : ℤ
  value : ℤ
  unit : UnitSymbol
  deriving DecidableEq, Repr

/-- A v2 relative time interval: start offset and optional duration. -/
structure RelativeTimeInterval where
  start : ℤ
  duration : Option ℤ
  deriving DecidableEq, Repr

/-- One `PMaxSchedule` entry: a maximum power level applying from
`time_interval.start`. -/
structure PMaxScheduleEntry where
  p_max : PVPMax
  time_interval : RelativeTimeInterval
  deriving DecidableEq, Repr

/-- A v2 `PMaxSchedule`: the ordered schedule entries. -/
structure PMaxSchedule where
  schedule_entries : List PMaxScheduleEntry
  deriving DecidableEq, Repr

/-- A v2 `SAScheduleTuple` (the optional sales tariff is not used by the
embedded code and not modelled). -/
structure SAScheduleTuple where
  tuple_id : ℤ
  p_max_schedule : PMaxSchedule
  deriving DecidableEq, Repr

/-- A v2 `ProfileEntryDetails`: one charging-profile row. -/
structure ProfileEntryDetails where
  start : ℤ
  max_power : PVPMax
  deriving DecidableEq, Repr

/-- A v2 `ChargingProfile`: the rows built by the EVCC. -/
structure ChargingProfile where
  profile_entries : List ProfileEntryDetails
  deriving DecidableEq, Repr

/-- `ChargeProgress` from the v2 data types. -/
inductive ChargeProgress
  | START
  | STOP
  | RENEGOTIATE
  deriving DecidableEq, Repr

/-- Python truthiness of the optional `duration` field
(`if schedule_entry_details.time_interval.duration:`): `None` and `0` are
falsy. -/
def durationTruthy : Option ℤ → Bool
  | none => false
  | some x => x != 0

/-- The body of the `for` loop of `process_sa_schedules`: append the
translated profile entry, and, when the entry's `duration` is truthy, also
append a zero-power entry at `start + duration`. -/
def process_schedule_entry (acc : List ProfileEntryDetails)
    (e : PMaxScheduleEntry) : List ProfileEntryDetails :=
  let acc2 := acc ++ [⟨e.time_interval.start, e.p_max⟩]
  if durationTruthy e.time_interval.duration then
    acc2 ++ [⟨e.time_interval.start + e.time_interval.duration.getD 0,
      ⟨0, 0, UnitSymbol.WATT⟩⟩]
  else acc2

/-- `SimEVController.process_sa_schedules` from `simulator.py`: pop the LAST
offered schedule tuple (`sa_schedules.pop()`; `IndexError` on an empty list is
modelled as `none`), then translate its `PMaxSchedule` entries into a
`ChargingProfile`. -/
def process_sa_schedules (sa_schedules : List SAScheduleTuple) :
    Option (ChargeProgress × ℤ × ChargingProfile) :=
  match sa_schedules.getLast? with
  | none => none
  | some schedule =>
    some (ChargeProgress.START, schedule.tuple_id,
      ⟨schedule.p_max_schedule.schedule_entries.foldl process_schedule_entry []⟩)

/-- Specification-side description of the rows `process_sa_schedules` produces
for one schedule entry: the translated entry itself, followed by the
synthesized zero-power entry exactly when the entry's duration is present and
nonzero. -/
def entry_profile (e : PMaxScheduleEntry) : List ProfileEntryDetails :=
  ⟨e.time_interval.start, e.p_max⟩ ::
    (if durationTruthy e.time_interval.duration then
      [⟨e.time_interval.start + e.time_interval.duration.getD 0,
        ⟨0, 0, UnitSymbol.WATT⟩⟩]
    else [])

/-! ## Session state machine
The state classes live in `iso15118/secc/states/`, which is not part of the
given source tree; the definitions below are modelled from the spec. The
`ResponseCode` enumeration itself IS in the source
(`common_types.py`, lines 95-139) and is embedded from there. -/

/-- `ResponseCode` from `common_types.py`: the closed enumeration of v20
response codes, partitioned into OK/WARNING/FAILED categories. -/
inductive ResponseCode
  | OK
  | OK_CERT_EXPIRES_SOON
  | OK_NEW_SESSION_ESTABLISHED
  | OK_OLD_SESSION_JOINED
  | OK_POWER_TOLERANCE_CONFIRMED
  | WARN_AUTH_SELECTION_INVALID
  | WARN_CERT_EXPIRED
  | WARN_CERT_NOT_YET_VALID
  | WARN_CERT_REVOKED
  | WARN_CERT_VALIDATION_ERROR
  | WARN_CHALLENGE_INVALID
  | WARN_EIM_AUTH_FAILED
  | WARN_EMSP_UNKNOWN
  | WARN_EV_POWER_PROFILE_VIOLATION
  | WARN_GENERAL_PNC_AUTH_ERROR
  | WARN_NO_CERT_AVAILABLE
  | WARN_NO_CONTRACT_MATCHING_PCID_FOUND
  | WARN_POWER_TOLERANCE_NOT_CONFIRMED
  | WARN_SCHEDULE_RENEGOTIATION_FAILED
  | WARN_STANDBY_NOT_ALLOWED
  | WARN_WPT
  | FAILED
  | FAILED_ASSOCIATION_ERROR
  | FAILED_CONTACTOR_ERROR
  | FAILED_EV_POWER_PROFILE_INVALID
  | FAILED_EV_POWER_PROFILE_VIOLATION
  | FAILED_METERING_SIGNATURE_NOT_VALID
  | FAILED_NO_ENERGY_TRANSFER_SERVICE_SELECTED
  | FAILED_NO_SERVICE_RENEGOTIATION_SUPPORTED
  | FAILED_PAUSE_NOT_ALLOWED
  | FAILED_POWER_DELIVERY_NOT_APPLIED
  | FAILED_POWER_TOLERANCE_NOT_CONFIRMED
  | FAILED_SCHEDULE_RENEGOTIATION
  | FAILED_SCHEDULE_SELECTION_INVALID
  | FAILED_SEQUENCE_ERROR
  | FAILED_SERVICE_ID_INVALID
  | FAILED_SERVICE_SELECTION_INVALID
  | FAILED_SIGNATURE_ERROR
  | FAILED_UNKNOWN_SESSION
  | FAILED_WRONG_CHARGE_PARAMETER
  deriving DecidableEq, Repr

/-- Modelled from the spec: the session states the claims refer to, across
the two protocol generations. -/
inductive SessionState
  | ServiceDiscovery
  | ServiceDetail
  | Authorization
  | ChargeParameterDiscovery
  | ScheduleExchange
  | PowerDelivery
  | CurrentDemand
  | ACChargeLoop
  | SessionStop
  | Terminate
  deriving DecidableEq, Repr

/-- Modelled from the spec: control-pilot (charge-point) states, the "small
enumeration of detected contactor/coupler states" (`CpState` in
`iso15118/shared/messages/enums.py`, not in the source tree). -/
inductive CpState
  | A1
  | A2
  | B1
  | B2
  | C1
  | C2
  | D1
  | D2
  | E
  | F
  deriving DecidableEq, Repr

/-- Modelled from the spec: the two protocol generations relevant to the
claims. -/
inductive ProtocolGen
  | v2
  | v20ac
  deriving DecidableEq, Repr

/-- Modelled from the spec: the charge-loop state each protocol generation
advances to from PowerDelivery (CurrentDemand for v2, ACChargeLoop for v20
AC). -/
def charge_loop_state : ProtocolGen → SessionState
  | ProtocolGen.v2 => SessionState.CurrentDemand
  | ProtocolGen.v20ac => SessionState.ACChargeLoop

/-- Modelled from the spec: the PowerDelivery state's next-state decision for
a charge-start request. Charging proceeds to the charge loop only when the
most recently observed charge-point state signals an energized, closed
condition (C2 or D2); any other observed state forces Terminate. -/
def power_delivery_next_state (proto : ProtocolGen) (cp : CpState) :
    SessionState :=
  if cp = CpState.C2 ∨ cp = CpState.D2 then charge_loop_state proto
  else SessionState.Terminate

/-- `AuthorizationStatus` (from `iso15118/shared/messages/enums.py`, not in
the source tree; the members are those exercised by the tests). -/
inductive AuthorizationStatus
  | ACCEPTED
  | ONGOING
  | REJECTED
  deriving DecidableEq, Repr

/-- Modelled from the spec: the outcome of the Authorization state processing
one AuthorizationReq: the chosen next state (`none` = stay in Authorization)
and whether one more AuthorizationReq is expected. -/
structure AuthorizationOutcome where
  next_state : Option SessionState
  expecting_authorization_req : Bool
  deriving DecidableEq, Repr

/-- Modelled from the spec: the Authorization state's decision on the
controller's authorization status. ACCEPTED advances to the successor state
(ChargeParameterDiscovery in v2) expecting no further AuthorizationReq;
ONGOING stays in Authorization expecting exactly one more; REJECTED advances
to Terminate. -/
def authorization_step (decision : AuthorizationStatus) : AuthorizationOutcome :=
  match decision with
  | AuthorizationStatus.ACCEPTED =>
    ⟨some SessionState.ChargeParameterDiscovery, false⟩
  | AuthorizationStatus.ONGOING => ⟨none, true⟩
  | AuthorizationStatus.REJECTED => ⟨some SessionState.Terminate, false⟩

/-- Modelled from the spec: the ServiceDetail state's service-id check
([V2G20-464]): a requested id among those offered during ServiceDiscovery
yields OK, any other id yields FAILED_SERVICE_ID_INVALID; in both cases the
session's current state remains ServiceDetail (the SECC answers and awaits
the next request). -/
def service_detail_step (offered_service_ids : List ℤ)
    (requested_service_id : ℤ) : ResponseCode × SessionState :=
  if requested_service_id ∈ offered_service_ids then
    (ResponseCode.OK, SessionState.ServiceDetail)
  else (ResponseCode.FAILED_SERVICE_ID_INVALID, SessionState.ServiceDetail)

/-- Modelled from the spec: the kinds of request message a state may expect. -/
inductive V2GRequestKind
  | ServiceDiscoveryReq
  | ServiceDetailReq
  | AuthorizationReq
  | ChargeParameterDiscoveryReq
  | PowerDeliveryReq
  | SessionStopReq
  deriving DecidableEq, Repr

/-- Modelled from the spec: per-state request validation (step 1 of the state
contract). The received request must match the state's expected request
variant, and the state must still be expecting it (an unexpected repetition
of an already-answered request fails the second condition). Any failure is a
sequence error: FAILED_SEQUENCE_ERROR and a transition to Terminate. -/
def validate_request (expected : V2GRequestKind) (expecting : Bool)
    (received : V2GRequestKind) : Except (ResponseCode × SessionState) Unit :=
  if received = expected ∧ expecting = true then Except.ok ()
  else Except.error (ResponseCode.FAILED_SEQUENCE_ERROR, SessionState.Terminate)

/-- Modelled from the spec: the SECC-side schedule builder used by the v2
ChargeParameterDiscovery state (`get_sa_schedule_list`, not in the source
tree). It offers one SAScheduleTuple holding a single PMaxSchedule entry that
starts at offset 0 and lasts for the EV's departure time when one was
supplied, and for 24 hours (86400 s) otherwise. -/
def get_sa_schedule_list (departure_time : Option ℤ) : List SAScheduleTuple :=
  let duration :=
    match departure_time with
    | some t => t
    | none => 86400
  [⟨1, ⟨[⟨⟨0, 11000, UnitSymbol.WATT⟩, ⟨0, some duration⟩⟩]⟩⟩]

/-- The schedule duration measured by the V2G2-303/V2G2-304 tests: last entry
start minus first entry start, plus the last entry's duration. -/
def coveredDuration (entries : List PMaxScheduleEntry) : ℤ :=
  match entries.head?, entries.getLast? with
  | some f, some l =>
    l.time_interval.start - f.time_interval.start +
      l.time_interval.duration.getD 0
  | _, _ => 0

end Iso15118


namespace Iso15118

/-! ## Claim theorems -/

/-- Claim C1: for every ChargeParameterDiscoveryReq, if the EV supplied a
departure time T, every schedule tuple in the response's SAScheduleList has
total covered duration exactly T; if no departure time was supplied, every
schedule tuple's total covered duration is at least 86400 seconds and some
entry starts at offset 0. -/
theorem charge_parameter_discovery_schedule_coverage (dep : Option ℤ) :
    (∀ T : ℤ, dep = some T →
      ∀ st ∈ get_sa_schedule_list dep,
        coveredDuration st.p_max_schedule.schedule_entries = T) ∧
    (dep = none →
      ∀ st ∈ get_sa_schedule_list dep,
        86400 ≤ coveredDuration st.p_max_schedule.schedule_entries ∧
        ∃ e ∈ st.p_max_schedule.schedule_entries, e.time_interval.start = 0) := by
  constructor
  · rintro T rfl st hst
    simp only [get_sa_schedule_list, List.mem_singleton] at hst
    subst hst
    simp [coveredDuration]
  · rintro rfl st hst
    simp only [get_sa_schedule_list, List.mem_singleton] at hst
    subst hst
    exact ⟨by simp [coveredDuration], ⟨_, List.mem_singleton.mpr rfl, rfl⟩⟩

/-- Claim C1 witness: the coverage property evaluated at a one-hour departure
time and at an absent departure time, for the concrete offered tuple. -/
theorem charge_parameter_discovery_schedule_coverage_witness :
    coveredDuration
      (⟨1, ⟨[⟨⟨0, 11000, UnitSymbol.WATT⟩, ⟨0, some 3600⟩⟩]⟩⟩ :
        SAScheduleTuple).p_max_schedule.schedule_entries = 3600 ∧
    86400 ≤ coveredDuration
      (⟨1, ⟨[⟨⟨0, 11000, UnitSymbol.WATT⟩, ⟨0, some 86400⟩⟩]⟩⟩ :
        SAScheduleTuple).p_max_schedule.schedule_entries :=
  ⟨(charge_parameter_discovery_schedule_coverage (some 3600)).1 3600 rfl _
      (List.mem_singleton.mpr rfl),
    ((charge_parameter_discovery_schedule_coverage none).2 rfl _
      (List.mem_singleton.mpr rfl)).1⟩

/-- Claim C2: for a charge-start PowerDeliveryReq, an observed charge-point
state of C2 or D2 advances to the charge-loop state (CurrentDemand for v2,
ACChargeLoop for v20 AC); every other observed charge-point state forces
Terminate. -/
theorem power_delivery_cp_state_gate (proto : ProtocolGen) (cp : CpState) :
    ((cp = CpState.C2 ∨ cp = CpState.D2) →
      power_delivery_next_state proto cp = charge_loop_state proto) ∧
    (¬(cp = CpState.C2 ∨ cp = CpState.D2) →
      power_delivery_next_state proto cp = SessionState.Terminate) := by
  unfold power_delivery_next_state
  constructor
  · intro h
    rw [if_pos h]
  · intro h
    rw [if_neg h]

/-- Claim C2 witness: C2 proceeds to CurrentDemand (v2) and to ACChargeLoop
(v20 AC); B1 terminates. -/
theorem power_delivery_cp_state_gate_witness :
    power_delivery_next_state ProtocolGen.v2 CpState.C2 =
      SessionState.CurrentDemand ∧
    power_delivery_next_state ProtocolGen.v20ac CpState.D2 =
      SessionState.ACChargeLoop ∧
    power_delivery_next_state ProtocolGen.v2 CpState.B1 =
      SessionState.Terminate :=
  ⟨(power_delivery_cp_state_gate ProtocolGen.v2 CpState.C2).1 (Or.inl rfl),
    (power_delivery_cp_state_gate ProtocolGen.v20ac CpState.D2).1 (Or.inr rfl),
    (power_delivery_cp_state_gate ProtocolGen.v2 CpState.B1).2 (by decide)⟩

/-- Claim C3: for every AuthorizationReq, an ACCEPTED decision advances to
the successor state (ChargeParameterDiscovery in v2) with no further
AuthorizationReq expected; ONGOING stays in Authorization (next state none)
expecting exactly one more AuthorizationReq; REJECTED advances to
Terminate. -/
theorem authorization_decision_transitions :
    authorization_step AuthorizationStatus.ACCEPTED =
      ⟨some SessionState.ChargeParameterDiscovery, false⟩ ∧
    authorization_step AuthorizationStatus.ONGOING = ⟨none, true⟩ ∧
    authorization_step AuthorizationStatus.REJECTED =
      ⟨some SessionState.Terminate, false⟩ :=
  ⟨rfl, rfl, rfl⟩

/-- Claim C6: a ServiceDetailReq whose service id was not offered during
ServiceDiscovery yields FAILED_SERVICE_ID_INVALID and the session stays in
ServiceDetail; an offered service id yields OK. -/
theorem service_detail_id_check (offered : List ℤ) (sid : ℤ) :
    (sid ∈ offered →
      service_detail_step offered sid =
        (ResponseCode.OK, SessionState.ServiceDetail)) ∧
    (sid ∉ offered →
      service_detail_step offered sid =
        (ResponseCode.FAILED_SERVICE_ID_INVALID, SessionState.ServiceDetail)) := by
  unfold service_detail_step
  constructor
  · intro h
    rw [if_pos h]
  · intro h
    rw [if_neg h]

/-- Claim C6 witness: with offered ids [1, 5], requesting 1 yields OK and
requesting 2 yields FAILED_SERVICE_ID_INVALID, in ServiceDetail either way. -/
theorem service_detail_id_check_witness :
    service_detail_step [1, 5] 1 =
      (ResponseCode.OK, SessionState.ServiceDetail) ∧
    service_detail_step [1, 5] 2 =
      (ResponseCode.FAILED_SERVICE_ID_INVALID, SessionState.ServiceDetail) :=
  ⟨(service_detail_id_check [1, 5] 1).1 (by decide),
    (service_detail_id_check [1, 5] 2).2 (by decide)⟩

/-- Claim C7: a request whose runtime type does not match the state's expected
request variant, or an unexpected repetition of an already-answered request
(the state no longer expecting it), yields FAILED_SEQUENCE_ERROR and a
transition to Terminate; a matching, expected request passes validation. -/
theorem sequence_error_on_unexpected_request (expected received : V2GRequestKind)
    (expecting : Bool) :
    ((received ≠ expected ∨ expecting = false) →
      validate_request expected expecting received =
        Except.error (ResponseCode.FAILED_SEQUENCE_ERROR, SessionState.Terminate)) ∧
    (received = expected → expecting = true →
      validate_request expected expecting received = Except.ok ()) := by
  unfold validate_request
  constructor
  · intro h
    rw [if_neg]
    rintro ⟨heq, hexp⟩
    rcases h with h | h
    · exact h heq
    · rw [h] at hexp
      exact Bool.false_ne_true hexp
  · intro heq hexp
    rw [if_pos ⟨heq, hexp⟩]

/-- Claim C7 witness: a second ServiceDiscoveryReq sent to a ServiceDiscovery
state that already answered one (no longer expecting it) is a sequence error;
the first one passes. -/
theorem sequence_error_on_unexpected_request_witness :
    validate_request V2GRequestKind.ServiceDiscoveryReq false
      V2GRequestKind.ServiceDiscoveryReq =
      Except.error (ResponseCode.FAILED_SEQUENCE_ERROR, SessionState.Terminate) ∧
    validate_request V2GRequestKind.ServiceDiscoveryReq true
      V2GRequestKind.ServiceDiscoveryReq = Except.ok () :=
  ⟨(sequence_error_on_unexpected_request V2GRequestKind.ServiceDiscoveryReq
      V2GRequestKind.ServiceDiscoveryReq false).1 (Or.inr rfl),
    (sequence_error_on_unexpected_request V2GRequestKind.ServiceDiscoveryReq
      V2GRequestKind.ServiceDiscoveryReq true).2 rfl rfl⟩

/-- The loop of `process_sa_schedules` appends `entry_profile e` for each
entry `e`, in order. -/
theorem foldl_process_schedule_entry (l : List PMaxScheduleEntry)
    (acc : List ProfileEntryDetails) :
    l.foldl process_schedule_entry acc = acc ++ l.flatMap entry_profile := by
  induction l generalizing acc with
  | nil => simp
  | cons e rest ih =>
    rw [List.foldl_cons, ih, List.flatMap_cons]
    have hstep : process_schedule_entry acc e = acc ++ entry_profile e := by
      unfold process_schedule_entry entry_profile
      by_cases h : durationTruthy e.time_interval.duration = true
      · simp [h]
      · simp [h]
    rw [hstep, List.append_assoc]

/-- Claim C8 (amended): `process_sa_schedules` processes the last offered
schedule tuple; each schedule entry is translated into a
ProfileEntryDetails(start, max_power), and a zero-power entry at
start + duration is synthesized after EVERY entry whose duration is present
and nonzero — not only after the final entry. -/
theorem process_sa_schedules_profile (sa_schedules : List SAScheduleTuple)
    (schedule : SAScheduleTuple)
    (hlast : sa_schedules.getLast? = some schedule) :
    process_sa_schedules sa_schedules =
      some (ChargeProgress.START, schedule.tuple_id,
        ⟨schedule.p_max_schedule.schedule_entries.flatMap entry_profile⟩) := by
  unfold process_sa_schedules
  rw [hlast]
  simp only [foldl_process_schedule_entry, List.nil_append]

/-- Claim C8 witness: a single-tuple offer whose only entry carries a
duration yields the translated entry plus the synthesized zero-power entry at
start + duration. -/
theorem process_sa_schedules_profile_witness :
    process_sa_schedules [⟨2, ⟨[⟨⟨0, 5000, UnitSymbol.WATT⟩, ⟨0, some 3600⟩⟩]⟩⟩] =
      some (ChargeProgress.START, 2,
        ⟨[⟨0, ⟨0, 5000, UnitSymbol.WATT⟩⟩, ⟨3600, ⟨0, 0, UnitSymbol.WATT⟩⟩]⟩) := by
  have h := process_sa_schedules_profile
    [⟨2, ⟨[⟨⟨0, 5000, UnitSymbol.WATT⟩, ⟨0, some 3600⟩⟩]⟩⟩]
    ⟨2, ⟨[⟨⟨0, 5000, UnitSymbol.WATT⟩, ⟨0, some 3600⟩⟩]⟩⟩ rfl
  simpa [entry_profile, durationTruthy] using h

/-- Claim C8 counterexample: a schedule whose FIRST (non-final) entry carries
a duration and whose final entry carries none still gets a zero-power entry
synthesized (at 0 + 100, in the middle of the profile), refuting the claim
that the zero-power entry is synthesized exactly when the FINAL entry carries
an explicit duration and for no other entry. -/
theorem process_sa_schedules_mid_schedule_zero_entry :
    process_sa_schedules
      [⟨1, ⟨[⟨⟨0, 11000, UnitSymbol.WATT⟩, ⟨0, some 100⟩⟩,
            ⟨⟨0, 7000, UnitSymbol.WATT⟩, ⟨200, none⟩⟩]⟩⟩] =
      some (ChargeProgress.START, 1,
        ⟨[⟨0, ⟨0, 11000, UnitSymbol.WATT⟩⟩,
          ⟨100, ⟨0, 0, UnitSymbol.WATT⟩⟩,
          ⟨200, ⟨0, 7000, UnitSymbol.WATT⟩⟩]⟩) := by
  rfl

end Iso15118

namespace Iso15118

/-- Claim C9 (amended): pydantic construction succeeds iff every declared
field constraint holds, and otherwise fails with a ValidationError naming the
offending field. MessageHeader accepts session_id iff it has at most 16
characters and Python int(value, 16) parses it — hex strings SHORTER than 16
characters are accepted too, so the session id is not a fixed-length field.
Identifier strings are capped at 255 characters and RootCertificateIDList at
20 items, as claimed. -/
theorem message_validation_constraints :
    (∀ s : String, ∀ t : ℤ, mkMessageHeader s t = Except.ok ⟨s, t⟩ ↔
      s.length ≤ 16 ∧ pyIntParsesHex s = true) ∧
    (∀ s : String, ∀ t : ℤ, ∀ e : ValidationError,
      mkMessageHeader s t = Except.error e → e.field = "session_id") ∧
    (∀ s : String, mkIdentifier s = Except.ok s ↔ s.length ≤ 255) ∧
    (∀ s : String, ∀ e : ValidationError,
      mkIdentifier s = Except.error e → e.field = "identifier") ∧
    (∀ ids : List X509IssuerSerial,
      mkRootCertificateIDList ids = Except.ok ⟨ids⟩ ↔ ids.length ≤ 20) ∧
    (∀ ids : List X509IssuerSerial, ∀ e : ValidationError,
      mkRootCertificateIDList ids = Except.error e → e.field = "root_cert_ids") := by
  refine ⟨?_, ?_, ?_, ?_, ?_, ?_⟩
  · intro s t
    unfold mkMessageHeader
    split_ifs with h1 h2
    · constructor
      · intro h
        cases h
      · rintro ⟨hle, _⟩
        omega
    · exact ⟨fun _ => ⟨by omega, h2⟩, fun _ => rfl⟩
    · constructor
      · intro h
        cases h
      · rintro ⟨_, hhex⟩
        exact absurd hhex h2
  · intro s t e
    unfold mkMessageHeader
    split_ifs with h1 h2
    · intro h
      cases h
      rfl
    · intro h
      cases h
    · intro h
      cases h
      rfl
  · intro s
    unfold mkIdentifier
    split_ifs with h1
    · constructor
      · intro h
        cases h
      · intro hle
        omega
    · exact ⟨fun _ => by omega, fun _ => rfl⟩
  · intro s e
    unfold mkIdentifier
    split_ifs with h1
    · intro h
      cases h
      rfl
    · intro h
      cases h
  · intro ids
    unfold mkRootCertificateIDList
    split_ifs with h1
    · constructor
      · intro h
        cases h
      · intro hle
        omega
    · exact ⟨fun _ => by omega, fun _ => rfl⟩
  · intro ids e
    unfold mkRootCertificateIDList
    split_ifs with h1
    · intro h
      cases h
      rfl
    · intro h
      cases h

set_option maxRecDepth 4096 in
/-- Claim C9 witness: the failure cases of the theorem applied at concrete
over-limit inputs, each naming the offending field. -/
theorem message_validation_constraints_witness :
    (ValidationError.mk "session_id"
      "Invalid value for SessionID (must be hexadecimal representation of max 8 bytes)").field =
        "session_id" ∧
    (ValidationError.mk "identifier"
      "ensure this value has at most 255 characters").field = "identifier" ∧
    (ValidationError.mk "root_cert_ids"
      "ensure this value has at most 20 items").field = "root_cert_ids" ∧
    mkMessageHeader "F9F9EE8505F55838" 0 = Except.ok ⟨"F9F9EE8505F55838", 0⟩ :=
  ⟨message_validation_constraints.2.1 "XYZ" 0 _ (by decide),
    message_validation_constraints.2.2.2.1
      (String.mk (List.replicate 256 'a')) _ (by decide),
    message_validation_constraints.2.2.2.2.2 (List.replicate 21 ⟨"i", 1⟩) _ (by decide),
    (message_validation_constraints.1 "F9F9EE8505F55838" 0).mpr ⟨by decide, by decide⟩⟩

/-- Claim C9 counterexample: the two-character hex string "AB" is accepted as
a session id, so MessageHeader does NOT accept only fixed-length
16-hex-character strings. -/
theorem session_id_accepts_short_hex :
    mkMessageHeader "AB" 0 = Except.ok ⟨"AB", 0⟩ ∧ "AB".length ≠ 16 := by
  constructor
  · decide
  · decide

end Iso15118

namespace Iso15118

/-- Claim C5 (amended): `_convert_to_exponent_number` maps the value 0 to
exponent 0 and mantissa 0 (whose decoded value is 0); but `get_rational_repr`
treats the input 0.0 as falsy (`if not float_value`) and returns None rather
than a RationalNumber with exponent 0 and mantissa 0. (The nonzero-limit
hypothesis reflects that Python would raise ZeroDivisionError for a zero
limit.) -/
theorem zero_encoding_behavior (min_limit max_limit : ℚ)
    (_hL : limit_for 0 min_limit max_limit ≠ 0) :
    convert_to_exponent_number 0 min_limit max_limit = Except.ok (0, 0) ∧
    RationalNumber.get_decimal_value ⟨0, 0⟩ = 0 ∧
    get_rational_repr (some 0) = Except.ok none := by
  refine ⟨?_, ?_, rfl⟩
  · unfold convert_to_exponent_number
    rw [if_neg (by rintro ⟨h, _⟩; exact absurd h (lt_irrefl 0))]
    rw [if_pos (Or.inr (by unfold pyAbs; rw [if_neg (lt_irrefl (0 : ℚ))]))]
    norm_num [pyInt]
  · norm_num [RationalNumber.get_decimal_value, pow10]

/-- Claim C5 witness: the zero-encoding facts at the default int16 limits. -/
theorem zero_encoding_behavior_witness :
    convert_to_exponent_number 0 INT_16_MIN INT_16_MAX = Except.ok (0, 0) ∧
    RationalNumber.get_decimal_value ⟨0, 0⟩ = 0 ∧
    get_rational_repr (some 0) = Except.ok none :=
  zero_encoding_behavior INT_16_MIN INT_16_MAX
    (by norm_num [limit_for, INT_16_MIN, INT_16_MAX, min_def])

/-- Claim C5 counterexample: for the input value 0.0, `get_rational_repr`
returns None (Python falsy check) — it does not produce a RationalNumber with
exponent 0 and mantissa 0 as the claim states. -/
theorem get_rational_repr_zero_returns_none :
    get_rational_repr (some 0) = Except.ok none ∧
    get_rational_repr (some 0) ≠ Except.ok (some ⟨0, 0⟩) := by
  constructor
  · rfl
  · intro h
    rw [show get_rational_repr (some 0) = Except.ok none from rfl] at h
    simp at h

/-- Claim C10 (amended): a strictly negative value with a minimum limit of
exactly 0 raises ValueError before any exponent search is attempted; but
negative values can be encoded whenever the minimum limit is NONZERO — the
v20 default of int16 minimum works, and so does a positive minimum limit
(the guard only compares the minimum limit against 0; the working limit then
becomes its absolute value). -/
theorem negative_value_min_limit_guard :
    (∀ v min_limit max_limit : ℚ, v < 0 → min_limit = 0 →
      convert_to_exponent_number v min_limit max_limit =
        Except.error
          "The conversion of negative values for a range with a min limit of 0, is invalid!") ∧
    convert_to_exponent_number (-10000) INT_16_MIN INT_16_MAX =
      Except.ok (0, -10000) := by
  constructor
  · intro v min_limit max_limit hv hmin
    unfold convert_to_exponent_number
    rw [if_pos ⟨hv, hmin⟩]
  · norm_num [convert_to_exponent_number, limit_for, INT_16_MIN, INT_16_MAX,
      scaleUp, scaleDown, convUp, convDown, pyAbs, pyInt, pow10, max_def, min_def]

/-- Claim C10 witness: the guard applied at the concrete negative value -1
with minimum limit 0. -/
theorem negative_value_min_limit_guard_witness :
    convert_to_exponent_number (-1) 0 32767 =
      Except.error
        "The conversion of negative values for a range with a min limit of 0, is invalid!" :=
  negative_value_min_limit_guard.1 (-1) 0 32767 (by norm_num) rfl

/-- Claim C10 counterexample: the negative value -3 with the POSITIVE minimum
limit 5 is encoded successfully (the working limit becomes abs(5) = 5), so
negative values are not only representable when the minimum limit is strictly
below 0. -/
theorem negative_value_with_positive_min_limit :
    convert_to_exponent_number (-3) 5 32767 = Except.ok (0, -3) ∧
    ¬((5 : ℚ) < 0) := by
  constructor
  · norm_num [convert_to_exponent_number, limit_for, INT_16_MIN, INT_16_MAX,
      scaleUp, scaleDown, convUp, convDown, pyAbs, pyInt, pow10, max_def, min_def]
  · norm_num

end Iso15118

namespace Iso15118

/-- One unrolling of the scale-up fuel loop. -/
theorem scaleUp_step (L : ℚ) (n : ℕ) (e : ℤ) (av : ℚ) :
    scaleUp L (n + 1) (e, av) =
      if av < L ∧ -3 < e then scaleUp L n (e - 1, av * 10) else (e, av) := rfl

/-- The scale-up loop with no fuel left returns its state. -/
theorem scaleUp_zero (L : ℚ) (s : ℤ × ℚ) : scaleUp L 0 s = s := rfl

/-- One unrolling of the scale-down fuel loop. -/
theorem scaleDown_step (L : ℚ) (n : ℕ) (e : ℤ) (av : ℚ) :
    scaleDown L (n + 1) (e, av) =
      if L < av ∧ e < 3 then scaleDown L n (e + 1, av * (1 / 10)) else (e, av) := rfl

/-- The scale-down loop with no fuel left returns its state. -/
theorem scaleDown_zero (L : ℚ) (s : ℤ × ℚ) : scaleDown L 0 s = s := rfl

/-- Truncation toward zero of a value in [0, 1) is 0. -/
theorem pyInt_eq_zero (q : ℚ) (h0 : 0 ≤ q) (h1 : q < 1) : pyInt q = 0 := by
  unfold pyInt
  rw [if_neg (not_lt.mpr h0)]
  exact Int.floor_eq_zero_iff.mpr (Set.mem_Ico.mpr ⟨h0, h1⟩)

/-- Claim C4 (amended): when the magnitude is too LARGE to fit the limit even
at exponent 3, the encoder raises a range error (no silent clamping); but
when the magnitude is too SMALL to yield a nonzero mantissa even at exponent
-3, the encoder does NOT raise — it silently returns exponent 0 with mantissa
0 (truncation to zero). -/
theorem rational_encode_range_error_policy :
    (∀ v min_limit max_limit : ℚ, ¬(v < 0 ∧ min_limit = 0) →
      0 < limit_for v min_limit max_limit →
      1000 * limit_for v min_limit max_limit < pyAbs v →
      convert_to_exponent_number v min_limit max_limit =
        Except.error "Value cant be represented with an exponent of 3") ∧
    (∀ v min_limit max_limit : ℚ, 0 < v → 1000 * v < 1 →
      1 ≤ limit_for v min_limit max_limit →
      convert_to_exponent_number v min_limit max_limit = Except.ok (0, 0)) := by
  constructor
  · intro v minL maxL hguard hpos hbig
    simp only [convert_to_exponent_number, convDown]
    set L := limit_for v minL maxL with hLdef
    have hLav : L < pyAbs v := by linarith
    have hc2 : ¬((1 / 10 < pyAbs v / L ∧ pyAbs v / L ≤ 1) ∨ pyAbs v = 0) := by
      rintro (⟨_, hle⟩ | h0)
      · have h1 : 1 < pyAbs v / L := (one_lt_div hpos).mpr hLav
        linarith
      · rw [h0] at hLav
        linarith
    have hc3 : ¬(pyAbs v < L) := not_lt.mpr hLav.le
    rw [if_neg hguard, if_neg hc2, if_neg hc3]
    have g2 : L < pyAbs v * (1 / 10) := by linarith
    have g3 : L < pyAbs v * (1 / 10) * (1 / 10) := by linarith
    have g4 : L < pyAbs v * (1 / 10) * (1 / 10) * (1 / 10) := by linarith
    have hs : scaleDown L 3 (0, pyAbs v) =
        (3, pyAbs v * (1 / 10) * (1 / 10) * (1 / 10)) := by
      rw [show (3 : ℕ) = 2 + 1 from rfl, scaleDown_step,
        if_pos ⟨hLav, by norm_num⟩,
        show (2 : ℕ) = 1 + 1 from rfl, scaleDown_step,
        if_pos ⟨g2, by norm_num⟩,
        show (1 : ℕ) = 0 + 1 from rfl, scaleDown_step,
        if_pos ⟨g3, by norm_num⟩, scaleDown_zero]
      norm_num
    simp only [hs]
    rw [if_pos g4]
  · intro v minL maxL hv hsmall hlim
    simp only [convert_to_exponent_number, convUp]
    have habs : pyAbs v = v := by
      unfold pyAbs
      rw [if_neg (not_lt.mpr hv.le)]
    rw [habs]
    set L := limit_for v minL maxL with hLdef
    have hguard : ¬(v < 0 ∧ minL = 0) := fun h => absurd h.1 (not_lt.mpr hv.le)
    have hL0 : (0 : ℚ) < L := lt_of_lt_of_le zero_lt_one hlim
    have hv1 : v < 1 / 1000 := by linarith
    have hc2 : ¬((1 / 10 < v / L ∧ v / L ≤ 1) ∨ v = 0) := by
      rintro (⟨hgt, _⟩ | h0)
      · have hds : v / L ≤ v := div_le_self hv.le hlim
        linarith
      · exact absurd h0 (ne_of_gt hv)
    have hc3 : v < L := by linarith
    rw [if_neg hguard, if_neg hc2, if_pos hc3]
    have g2 : v * 10 < L := by linarith
    have g3 : v * 10 * 10 < L := by linarith
    have hs : scaleUp L 3 (0, v) = (-3, v * 10 * 10 * 10) := by
      rw [show (3 : ℕ) = 2 + 1 from rfl, scaleUp_step,
        if_pos ⟨hc3, by norm_num⟩,
        show (2 : ℕ) = 1 + 1 from rfl, scaleUp_step,
        if_pos ⟨g2, by norm_num⟩,
        show (1 : ℕ) = 0 + 1 from rfl, scaleUp_step,
        if_pos ⟨g3, by norm_num⟩, scaleUp_zero]
      norm_num
    simp only [hs]
    have hX0 : 0 ≤ v * 10 * 10 * 10 := by positivity
    have hX1 : v * 10 * 10 * 10 < 1 := by linarith
    have hnotbig : ¬(L < v * 10 * 10 * 10) := by linarith
    have hz : pyInt (v * 10 * 10 * 10) = 0 := pyInt_eq_zero _ hX0 hX1
    rw [if_neg hnotbig, if_pos hz]
    have hpv : pyInt v = 0 := pyInt_eq_zero v hv.le (by linarith)
    norm_num [pow10, hpv]

/-- Claim C4 witness: the range error at the concrete too-large value 10^9,
and the silent zero at the concrete too-small value 1/2500, both against the
default int16 limits. -/
theorem rational_encode_range_error_policy_witness :
    convert_to_exponent_number 1000000000 INT_16_MIN INT_16_MAX =
      Except.error "Value cant be represented with an exponent of 3" ∧
    convert_to_exponent_number (1 / 2500) INT_16_MIN INT_16_MAX =
      Except.ok (0, 0) :=
  ⟨rational_encode_range_error_policy.1 1000000000 INT_16_MIN INT_16_MAX
      (by norm_num [INT_16_MIN])
      (by norm_num [limit_for, min_def, INT_16_MIN, INT_16_MAX])
      (by norm_num [limit_for, min_def, pyAbs, INT_16_MIN, INT_16_MAX]),
    rational_encode_range_error_policy.2 (1 / 2500) INT_16_MIN INT_16_MAX
      (by norm_num) (by norm_num)
      (by norm_num [limit_for, min_def, INT_16_MIN, INT_16_MAX])⟩

/-- Claim C4 counterexample: for the value 1/2500 — too small to yield a
nonzero mantissa even at exponent -3 against the int16 limit — the encoder
returns OK with exponent 0 and mantissa 0 (silent truncation to zero) instead
of failing with a range error as the claim states. -/
theorem small_value_silently_truncates_to_zero :
    convert_to_exponent_number (1 / 2500) INT_16_MIN INT_16_MAX =
      Except.ok (0, 0) ∧ (1 / 2500 : ℚ) ≠ 0 := by
  constructor
  · norm_num [convert_to_exponent_number, limit_for, INT_16_MIN, INT_16_MAX,
      scaleUp, scaleDown, convUp, convDown, pyAbs, pyInt, pow10]
  · norm_num

end Iso15118
